import Mathlib

/-!
Shallow embedding of the tool-dispatch and provider-selection layer of the
mcp-projects repository, together with theorems settling the spec claims.

Embedding conventions:
- JS `Map` objects and plain string-keyed objects are modelled as
  insertion-ordered association lists (`List (String × v)`); `Map.set` /
  property assignment replaces the value in place when the key is present
  and appends otherwise, `Map.get` / property read returns the first match.
- A thrown exception / rejected promise is `Except.error msg` where `msg`
  is the error's `message`; a normal return / resolution is `Except.ok`.
- The filesystem (`fs.existsSync` + `fs.readdirSync`) and the dynamic
  `require` + construction of a tool module are passed in explicitly as an
  environment `fsEnv : String → Option (List String)` (directory listing,
  `none` when the directory does not exist) and a loader
  `loader : String → String → Except String τ` (`Except.error` when the
  module throws during require/construction).
- Timed asynchronous behaviour (`Promise.race` against `setTimeout`) is
  modelled with discrete event time: the racing promise either settles at
  some instant `t` or never settles, and the race is won by whichever of
  the promise and the timer settles first.
-/

namespace Mcp

/-- JS `Map.get` / object property read over an insertion-ordered
association list: the first entry with the key, if any. -/
def mapGet {v : Type} : List (String × v) → String → Option v
  | [], _ => none
  | entry :: rest, key => if entry.1 = key then some entry.2 else mapGet rest key

/-- JS `Map.set` / object property assignment: replace the value in place
when the key is present (a `Map` holds each key at most once), append a new
entry otherwise. -/
def mapSet {v : Type} : List (String × v) → String → v → List (String × v)
  | [], key, value => [(key, value)]
  | entry :: rest, key, value =>
    if entry.1 = key then (key, value) :: rest
    else entry :: mapSet rest key value

/-- JS `a || b` on a possibly-absent string: `undefined` and the empty
string are falsy, any other string is truthy. -/
def jsOrString (s : Option String) (dflt : String) : String :=
  match s with
  | none => dflt
  | some v => if v = "" then dflt else v

/-- JS `a || b` on a possibly-absent number: `undefined` and `0` are falsy. -/
def jsOrNat (n : Option Nat) (dflt : Nat) : Nat :=
  match n with
  | none => dflt
  | some c => if c = 0 then dflt else c

/-- JS `String.prototype.replace` with a string pattern: replace the first
occurrence only (on the underlying character list). -/
def replaceFirstAux (pat repl : List Char) : List Char → List Char
  | [] => []
  | c :: rest =>
    if List.isPrefixOf pat (c :: rest) then repl ++ List.drop pat.length (c :: rest)
    else c :: replaceFirstAux pat repl rest

/-- JS `s.replace(pat, repl)` for a plain-string `pat`. -/
def jsReplaceFirst (s pat repl : String) : String :=
  String.mk (replaceFirstAux pat.toList repl.toList s.toList)

/-- JS `String.prototype.split` with a single-character separator, on the
underlying character list (structurally recursive so that it evaluates
definitionally; `split` keeps empty groups, and the empty string yields
one empty group, as in JS). -/
def splitCharAux (sep : Char) : List Char → List (List Char)
  | [] => [[]]
  | c :: rest =>
    if c = sep then [] :: splitCharAux sep rest
    else
      match splitCharAux sep rest with
      | [] => [[c]]
      | group :: groups => (c :: group) :: groups

/-- JS `s.split(sep)` for a one-character `sep`. -/
def jsSplitChar (s : String) (sep : Char) : List String :=
  (splitCharAux sep s.toList).map String.mk

/-- JS `String.prototype.endsWith`, on the underlying character list. -/
def jsEndsWith (s suffix : String) : Bool :=
  List.isSuffixOf suffix.toList s.toList

/-- JS `String.prototype.startsWith`, on the underlying character list. -/
def jsStartsWith (s pre : String) : Bool :=
  List.isPrefixOf pre.toList s.toList

/-! ### Archived cursor MCP server
`src/src/server/archive/cursor/core/src/server.ts`. The `EventEmitter`
notifications (`tool_registered`, `tool_executed`, `tool_error`) are
fire-and-forget observability and are not modelled. Parameters and results
are the opaque `unknown`; we keep them as type parameters `π`, `ρ`. -/

/-- `MCPTool`: `{ id: string; execute: (params) => Promise<unknown> }`. -/
structure MCPTool (π ρ : Type) where
  id : String
  execute : π → Except String ρ

/-- `MCPServer` state: `private tools: Map<string, MCPTool>`. -/
structure MCPServer (π ρ : Type) where
  tools : List (String × MCPTool π ρ)

/-- `MCPServer.registerTool`: `this.tools.set(tool.id, tool)` — no duplicate
check; an existing entry with the same id is overwritten. -/
def MCPServer.registerTool {π ρ : Type} (s : MCPServer π ρ) (tool : MCPTool π ρ) :
    MCPServer π ρ :=
  { tools := mapSet s.tools tool.id tool }

/-- `MCPServer.invokeTool`: looks the tool up; a missing tool makes it
`throw new Error(...)` (modelled as `Except.error`). The `try`/`catch`
around `tool.execute` emits an event and rethrows the same error, so the
net result of the execute branch is exactly `tool.execute params`. -/
def MCPServer.invokeTool {π ρ : Type} (s : MCPServer π ρ) (toolId : String)
    (params : π) : Except String ρ :=
  match mapGet s.tools toolId with
  | none => Except.error ("Tool not found: " ++ toolId)
  | some tool => tool.execute params

/-! ### ToolManager
`src/src/tools/index.js`. -/

/-- `Object.values(TOOL_CATEGORIES)`, in declaration order. -/
def TOOL_CATEGORIES : List String :=
  ["ai", "web", "google", "meta", "pattern", "workflow", "code",
   "code-analysis", "ml-services", "integrated"]

/-- `ToolManager` state: `this.tools = new Map(); this.initialized = false`. -/
structure ToolManager (τ : Type) where
  tools : List (String × τ)
  initialized : Bool

/-- The per-category file loop of `ToolManager.initialize`. The whole loop
sits inside one `try`: a file whose load throws aborts the remainder of the
category, keeping the entries already set (mutations made before the
throw persist). Only `.js` / `.ts` files are considered; the key is
`category + "/" + file`. -/
def loadCategoryFiles {τ : Type} (loader : String → String → Except String τ)
    (category : String) : List (String × τ) → List String → List (String × τ)
  | tools, [] => tools
  | tools, file :: rest =>
    if jsEndsWith file ".js" || jsEndsWith file ".ts" then
      match loader category file with
      | Except.error _ => tools
      | Except.ok impl =>
        loadCategoryFiles loader category
          (mapSet tools (category ++ "/" ++ file) impl) rest
    else loadCategoryFiles loader category tools rest

/-- `ToolManager.initialize`: early-returns when already initialized,
otherwise loads every category whose directory exists and finally sets
`initialized = true`. A category-level failure is caught and logged
(`console.warn`), never rethrown. -/
def ToolManager.init {τ : Type} (fsEnv : String → Option (List String))
    (loader : String → String → Except String τ) (tm : ToolManager τ) :
    ToolManager τ :=
  if tm.initialized then tm
  else
    { tools :=
        TOOL_CATEGORIES.foldl (fun acc category =>
          match fsEnv category with
          | none => acc
          | some files => loadCategoryFiles loader category acc files) tm.tools,
      initialized := true }

/-- `ToolManager.getTool(category, name)`: lookup of `category + "/" + name`. -/
def ToolManager.getTool {τ : Type} (tm : ToolManager τ) (category name : String) :
    Option τ :=
  mapGet tm.tools (category ++ "/" ++ name)

/-- `ToolManager.getAllTools()`: all `{path, tool}` entries in insertion order. -/
def ToolManager.getAllTools {τ : Type} (tm : ToolManager τ) : List (String × τ) :=
  tm.tools

/-- `ToolManager.getToolsByCategory(category)`: filters entries whose key
`startsWith(category)` — a plain string-prefix test on the
`category + "/" + file` key, not an exact category match. -/
def ToolManager.getToolsByCategory {τ : Type} (tm : ToolManager τ)
    (category : String) : List (String × τ) :=
  tm.tools.filter (fun entry => jsStartsWith entry.1 category)

/-! ### Unified server entry point
`src/server/src/main.ts` (second document of the file): the `tools` object,
`loadToolsFromDirectory`, and `handleToolRequest`. -/

/-- One iteration of the file loop of `loadToolsFromDirectory`: only
`*_tool.js` files are loaded, each inside its own `try`/`catch`, so one
failing constructor leaves the accumulator untouched. The tool name is
`file.replace('_tool.js', '')`. -/
def loadDirStep {τ : Type} (loader : String → String → Except String τ)
    (directory : String) (acc : List (String × τ)) (file : String) :
    List (String × τ) :=
  if jsEndsWith file "_tool.js" then
    match loader directory file with
    | Except.ok impl => mapSet acc (jsReplaceFirst file "_tool.js" "") impl
    | Except.error _ => acc
  else acc

/-- `loadToolsFromDirectory(directory)`: returns unchanged when the
directory does not exist, otherwise folds `loadDirStep` over its files. -/
def loadToolsFromDirectory {τ : Type} (fsEnv : String → Option (List String))
    (loader : String → String → Except String τ) (tools : List (String × τ))
    (directory : String) : List (String × τ) :=
  match fsEnv directory with
  | none => tools
  | some files => files.foldl (loadDirStep loader directory) tools

/-- Result shape of `handleToolRequest`: either the tool's output or the
error object `{ error, available_tools }` it builds on failure. -/
inductive ToolResponse (δ : Type) where
  | ok (data : δ)
  | err (message : String) (availableTools : List String)

/-- `handleToolRequest(toolName, data)`: a missing tool yields the
`Tool not found` error object; an implementation that throws is caught and
mapped to `Failed to process ... : message`, with the original message kept.
The function returns on every path — it never throws to its caller. -/
def handleToolRequest {π δ : Type} (tools : List (String × (π → Except String δ)))
    (toolName : String) (data : π) : ToolResponse δ :=
  match mapGet tools toolName with
  | none =>
    ToolResponse.err ("Tool not found: " ++ toolName) (tools.map (fun p => p.1))
  | some tool =>
    match tool data with
    | Except.ok result => ToolResponse.ok result
    | Except.error msg =>
      ToolResponse.err ("Failed to process " ++ toolName ++ " request: " ++ msg)
        (tools.map (fun p => p.1))

/-! ### Provider selector, Map-backed variant
`src/unnamed/part_012` (`ml-services/provider-selector.ts`): providers held
in an insertion-ordered `Map`, with a configured default provider. -/

/-- `MLProvider`: `supportedModels: string[]` and
`predict(input, options?) -> Promise<string>`; the option forwarded is
`options.model`. -/
structure MLProvider where
  supportedModels : List String
  predict : String → Option String → Except String String

/-- `ProviderSelector` state: the provider `Map` (the constructor inserts
anthropic, openai, google in that order) and
`defaultProvider = process.env.DEFAULT_AI_PROVIDER || 'anthropic'`. -/
structure ProviderSelector where
  providers : List (String × MLProvider)
  defaultProvider : String

/-- The model scan loop of `ProviderSelector.predict`:
`for (const [name, provider] of this.providers)` in `Map` insertion order,
returning the first provider whose `supportedModels` includes the model. -/
def ProviderSelector.findProviderForModel (sel : ProviderSelector)
    (model : String) : Option (String × MLProvider) :=
  List.find? (fun entry => entry.2.supportedModels.contains model) sel.providers

/-- `ProviderSelector.predict(input, model?)`. The model scan runs under
the JS truthiness guard `if (model)`: an `undefined` **or empty-string**
model is falsy and takes the default-provider path (called with no
options). The surrounding `try`/`catch` catches only the selector's own
synchronous throws — `No provider found for model: m` and
`Default provider d not found` — and remaps them to
`Failed to generate prediction`. The adapter call is returned without
`await`, so an adapter rejection bypasses the `catch` and reaches the
caller unchanged. -/
def ProviderSelector.predict (sel : ProviderSelector) (input : String)
    (model : Option String) : Except String String :=
  match model with
  | some m =>
    if m = "" then
      match mapGet sel.providers sel.defaultProvider with
      | some provider => provider.predict input none
      | none => Except.error "Failed to generate prediction"
    else
      match sel.findProviderForModel m with
      | some entry => entry.2.predict input (some m)
      | none => Except.error "Failed to generate prediction"
  | none =>
    match mapGet sel.providers sel.defaultProvider with
    | some provider => provider.predict input none
    | none => Except.error "Failed to generate prediction"

/-! ### Provider selector, Record-backed variant
`src/server/src/services/ml/provider-selector.ts`: providers held in a
plain object, no default provider and no fallback. -/

/-- `ProviderSelector` (ml variant) state: the provider record. -/
structure MlProviderSelector where
  providers : List (String × MLProvider)

/-- `getProvider(providerName)`: exact lookup; throws
`Provider name not found` when absent. -/
def MlProviderSelector.getProvider (sel : MlProviderSelector)
    (providerName : String) : Except String MLProvider :=
  match mapGet sel.providers providerName with
  | none => Except.error ("Provider " ++ providerName ++ " not found")
  | some provider => Except.ok provider

/-- `predict(providerName, input, options)` of the ml variant: resolves the
provider by name and forwards `options.model`; there is no default-provider
fallback. A JS caller that omits `providerName` passes `undefined`, which
the object property read coerces to the key `"undefined"` — we model the
omitted argument as that lookup key. -/
def MlProviderSelector.predict (sel : MlProviderSelector)
    (providerName : Option String) (input : String) (model : Option String) :
    Except String String :=
  match sel.getProvider (match providerName with
    | some n => n
    | none => "undefined") with
  | Except.error e => Except.error e
  | Except.ok provider => provider.predict input model

/-! ### CoreServer
`src/server/src/services/core/server.ts` (first document of the file):
command execution raced against a timeout. -/

/-- `CommandResult` of `CoreServer.execute`. -/
structure CommandResult where
  stdout : String
  stderr : String
  exitCode : Nat

/-- `ServerConfig` of `CoreServer`. -/
structure ServerConfig where
  maxExecutionTime : Nat
  allowedCommands : List String

/-- The `CoreServer` constructor:
`maxExecutionTime = parseInt(env.MAX_EXECUTION_TIME || '30000', 10)` and
`allowedCommands = (env.ALLOWED_COMMANDS || 'ls,pwd,echo').split(',')`.
The environment values are modelled post-parse. -/
def mkServerConfig (envMaxExecutionTime : Option Nat)
    (envAllowedCommands : Option String) : ServerConfig :=
  { maxExecutionTime := envMaxExecutionTime.getD 30000,
    allowedCommands := jsSplitChar (envAllowedCommands.getD "ls,pwd,echo") ',' }

/-- Behaviour of the `execAsync(command)` promise in discrete event time:
it resolves at instant `t` with `{stdout, stderr}`, rejects at instant `t`
with an error carrying a message and an optional numeric `code`, or never
settles. -/
inductive AsyncOutcome where
  | resolves (t : Nat) (sout serr : String)
  | rejects (t : Nat) (message : String) (code : Option Nat)
  | never

/-- Whether the racing promise settles strictly before the deadline — i.e.
before the `setTimeout` rejection fires. -/
def settlesBefore : AsyncOutcome → Nat → Bool
  | AsyncOutcome.resolves t _ _, deadline => decide (t < deadline)
  | AsyncOutcome.rejects t _ _, deadline => decide (t < deadline)
  | AsyncOutcome.never, _ => false

/-- The `catch` branch of `CoreServer.execute`:
`{ stdout: '', stderr: error.message || 'Unknown error occurred',
exitCode: error.code || 1 }`. -/
def catchResult (message : String) (code : Option Nat) : CommandResult :=
  { stdout := "",
    stderr := jsOrString (some message) "Unknown error occurred",
    exitCode := jsOrNat code 1 }

/-- `CoreServer.execute(command)`: validates the base command against the
allow-list (throwing when not allowed — modelled as `Except.error`), then
races `execAsync(command)` against a `setTimeout` rejection with message
`Command execution timed out` after `maxExecutionTime`. The second
component of the `ok` value is the instant at which the race settled.
When the promise has not settled before the deadline the timer wins the
race (a tie is resolved in favour of the timer; the claims only involve a
promise that never settles, where there is no tie). -/
def CoreServer.execute (cfg : ServerConfig) (command : String)
    (outcome : AsyncOutcome) : Except String (CommandResult × Nat) :=
  let baseCommand := (jsSplitChar command ' ').headD ""
  if cfg.allowedCommands.contains baseCommand = false then
    Except.error ("Command " ++ baseCommand ++ " is not allowed")
  else
    match outcome with
    | AsyncOutcome.resolves t sout serr =>
      if t < cfg.maxExecutionTime then
        Except.ok ({ stdout := sout.trim, stderr := serr.trim, exitCode := 0 }, t)
      else
        Except.ok (catchResult "Command execution timed out" none,
          cfg.maxExecutionTime)
    | AsyncOutcome.rejects t message code =>
      if t < cfg.maxExecutionTime then
        Except.ok (catchResult message code, t)
      else
        Except.ok (catchResult "Command execution timed out" none,
          cfg.maxExecutionTime)
    | AsyncOutcome.never =>
      Except.ok (catchResult "Command execution timed out" none,
        cfg.maxExecutionTime)

/-! ### Anthropic provider adapter
`src/unnamed/part_011` (and its mocked twin in the second document of
`src/server/src/services/core/server.ts`, which differs only in the
backend call). The SDK call `client.messages.create` is passed in as an
opaque `backend : model → input → Except String String` returning the text
of the first content block. -/

/-- `AnthropicProvider.supportedModels`. -/
def AnthropicProvider.supportedModels : List String :=
  ["claude-3-opus-20240229", "claude-3-sonnet-20240229", "claude-3-haiku-20240307"]

/-- `AnthropicProvider.predict(input, options?)`:
`model = options?.model || supportedModels[0]` (JS `||`, so an empty-string
model also falls back to the first supported model); an unsupported model
makes it throw, and the `try`/`catch` remaps every failure — the
unsupported-model throw and any backend rejection alike — to
`Failed to generate prediction with Anthropic`. -/
def AnthropicProvider.predict (backend : String → String → Except String String)
    (input : String) (optionsModel : Option String) : Except String String :=
  let model := jsOrString optionsModel (AnthropicProvider.supportedModels.headD "")
  if AnthropicProvider.supportedModels.contains model = false then
    Except.error "Failed to generate prediction with Anthropic"
  else
    match backend model input with
    | Except.ok response => Except.ok response
    | Except.error _ => Except.error "Failed to generate prediction with Anthropic"

/-! ### Concrete fixtures used by witnesses and counterexamples -/

/-- First registration of the id `alpha` (C1). -/
def c1FirstTool : MCPTool Nat Nat :=
  { id := "alpha", execute := fun _ => Except.ok 1 }

/-- Second registration of the same id `alpha` (C1). -/
def c1SecondTool : MCPTool Nat Nat :=
  { id := "alpha", execute := fun _ => Except.ok 2 }

/-- A tool whose implementation throws (C6). -/
def c6ThrowingTool : MCPTool Nat Nat :=
  { id := "boom", execute := fun _ => Except.error "boom failed" }

/-- A failing tool implementation for `handleToolRequest` (C6). -/
def c6FailingImpl : Nat → Except String Nat :=
  fun _ => Except.error "boom"

/-- Filesystem fixture (C7): only the `ai` category directory exists and it
holds two candidate files. -/
def c7FsEnv : String → Option (List String) :=
  fun category => if category = "ai" then some ["bad.js", "good.js"] else none

/-- Loader fixture (C7): constructing `bad.js` throws, everything else
loads fine. -/
def c7Loader : String → String → Except String String :=
  fun _ file => if file = "bad.js" then Except.error "construction failed" else Except.ok "impl"

/-- Loader fixture for the per-file loop of `loadToolsFromDirectory` (C7):
constructing `bad_tool.js` throws, everything else loads fine. -/
def c7DirLoader : String → String → Except String String :=
  fun _ file =>
    if file = "bad_tool.js" then Except.error "construction failed" else Except.ok "impl"

/-- A one-model mock provider (C3). -/
def c3MockProvider : MLProvider :=
  { supportedModels := ["claude-x"], predict := fun input _ => Except.ok ("ok:" ++ input) }

/-- Provider A, registered first, supporting only `m1` (C4). -/
def providerA : MLProvider :=
  { supportedModels := ["m1"], predict := fun input _ => Except.ok ("A:" ++ input) }

/-- Provider B, registered second, supporting `m1` and `m2` (C4). -/
def providerB : MLProvider :=
  { supportedModels := ["m1", "m2"], predict := fun input _ => Except.ok ("B:" ++ input) }

/-- A backend that echoes the model it was invoked with (C10). -/
def echoBackend : String → String → Except String String :=
  fun model input => Except.ok (model ++ ":" ++ input)

/-! ### Helper lemmas -/

/-- Reading back the key just written returns the written value. -/
theorem mapGet_mapSet {v : Type} (m : List (String × v)) (k : String) (x : v) :
    mapGet (mapSet m k x) k = some x := by
  induction m with
  | nil => simp [mapGet, mapSet]
  | cons entry rest ih =>
    by_cases h : entry.1 = k
    · simp [mapSet, h, mapGet]
    · simp [mapSet, h, mapGet, ih]

/-- The model scan returns the first registered provider supporting the
model: providers registered before it that do not support the model are
skipped. -/
theorem findProviderForModel_first (m : String) (P : MLProvider) (n dflt : String)
    (ps2 : List (String × MLProvider)) (h2 : P.supportedModels.contains m = true) :
    ∀ ps1 : List (String × MLProvider),
      (∀ q ∈ ps1, q.2.supportedModels.contains m = false) →
      ProviderSelector.findProviderForModel
        { providers := ps1 ++ (n, P) :: ps2, defaultProvider := dflt } m
        = some (n, P) := by
  intro ps1
  induction ps1 with
  | nil =>
    intro _
    simp only [ProviderSelector.findProviderForModel, List.nil_append]
    rw [List.find?_cons_of_pos]
    simpa using h2
  | cons q qs ih =>
    intro h1
    have hq : q.2.supportedModels.contains m = false := h1 q (by simp)
    have hrest := ih (fun r hr => h1 r (List.mem_cons_of_mem _ hr))
    simp only [ProviderSelector.findProviderForModel, List.cons_append] at hrest ⊢
    rw [List.find?_cons_of_neg]
    · exact hrest
    · simpa using hq

/-- When no registered provider supports a non-empty (truthy) model,
`predict` fails (the internal `No provider found for model` throw,
remapped by the `catch`). The empty string never reaches the scan: it is
falsy under `if (model)`. -/
theorem predict_no_provider_for_model (m : String) (sel : ProviderSelector)
    (input : String) (hne : ¬ m = "")
    (hall : ∀ q ∈ sel.providers, q.2.supportedModels.contains m = false) :
    ProviderSelector.predict sel input (some m)
      = Except.error "Failed to generate prediction" := by
  have hnone : ProviderSelector.findProviderForModel sel m = none := by
    unfold ProviderSelector.findProviderForModel
    exact List.find?_eq_none.mpr (fun x hx => by simpa using hall x hx)
  simp [ProviderSelector.predict, hne, hnone]

/-! ### Claim theorems -/

/-- C1, counterexample: registering the id `alpha` twice does not fail
(`registerTool` cannot fail) and silently overwrites — resolving `alpha`
afterwards runs the second implementation (result `2`), not the first
(result `1`). -/
theorem c1_duplicate_register_counterexample :
    MCPServer.invokeTool
        (MCPServer.registerTool (MCPServer.registerTool { tools := [] } c1FirstTool)
          c1SecondTool) "alpha" 0
      = Except.ok 2
    ∧ (Except.ok 2 : Except String Nat) ≠ Except.ok 1 :=
  ⟨rfl, by simp⟩

/-- C1, amended: duplicate registration is not rejected; `registerTool`
always succeeds and overwrites, so `resolve`/`invokeTool` on the name
afterwards runs the most recent registration's implementation. -/
theorem c1_register_overwrites {π ρ : Type} (s : MCPServer π ρ)
    (tool : MCPTool π ρ) (params : π) :
    MCPServer.invokeTool (MCPServer.registerTool s tool) tool.id params
      = tool.execute params := by
  simp [MCPServer.invokeTool, MCPServer.registerTool, mapGet_mapSet]

/-- C2: when the implementation's promise never settles before the
(positive) deadline, `CoreServer.execute` returns — rather than throws —
the timed-out `CommandResult` (`stderr` is the timeout message, exit code
1) exactly at `maxExecutionTime`, which is within `maxExecutionTime + ε`
for every `ε`; and the configured default of `maxExecutionTime` is
30000 ms. -/
theorem c2_never_resolving_times_out (cfg : ServerConfig) (command : String)
    (outcome : AsyncOutcome) (eps : Nat)
    (_hpos : 0 < cfg.maxExecutionTime)
    (hallowed : cfg.allowedCommands.contains ((jsSplitChar command ' ').headD "") = true)
    (hstuck : settlesBefore outcome cfg.maxExecutionTime = false) :
    CoreServer.execute cfg command outcome
      = Except.ok ({ stdout := "", stderr := "Command execution timed out", exitCode := 1 },
          cfg.maxExecutionTime)
    ∧ cfg.maxExecutionTime ≤ cfg.maxExecutionTime + eps
    ∧ (mkServerConfig none none).maxExecutionTime = 30000 := by
  refine ⟨?_, Nat.le_add_right _ _, rfl⟩
  have hmem : (jsSplitChar command ' ').head?.getD "" ∈ cfg.allowedCommands := by
    simpa using hallowed
  cases outcome with
  | resolves t sout serr =>
    have ht : ¬ t < cfg.maxExecutionTime := by simpa [settlesBefore] using hstuck
    simp [CoreServer.execute, hmem, ht, catchResult, jsOrString, jsOrNat]
  | rejects t message code =>
    have ht : ¬ t < cfg.maxExecutionTime := by simpa [settlesBefore] using hstuck
    simp [CoreServer.execute, hmem, ht, catchResult, jsOrString, jsOrNat]
  | never =>
    simp [CoreServer.execute, hmem, catchResult, jsOrString, jsOrNat]

/-- C2 witness: with `MAX_EXECUTION_TIME = 500`, default allowed commands
and the allowed command `ls -la`, a never-settling execution returns the
timed-out result at instant 500. -/
theorem c2_never_resolving_times_out_witness :
    0 < (mkServerConfig (some 500) none).maxExecutionTime
    ∧ CoreServer.execute (mkServerConfig (some 500) none) "ls -la" AsyncOutcome.never
        = Except.ok ({ stdout := "", stderr := "Command execution timed out", exitCode := 1 },
            (mkServerConfig (some 500) none).maxExecutionTime) :=
  ⟨by decide,
    (c2_never_resolving_times_out (mkServerConfig (some 500) none) "ls -la"
      AsyncOutcome.never 7 (by decide) (by decide) rfl).1⟩

/-- C3, counterexample: in the Record-backed selector an invalid provider
name (`bogus`) makes `predict` throw `Provider bogus not found` instead of
falling back to the configured default, and an omitted name (JS
`undefined`) throws `Provider undefined not found` likewise — the call
does not resolve to the default provider and carries no `providerUsed`
metadata. -/
theorem c3_invalid_name_counterexample :
    MlProviderSelector.predict { providers := [("anthropic", c3MockProvider)] }
        (some "bogus") "hello" none
      = Except.error "Provider bogus not found"
    ∧ MlProviderSelector.predict { providers := [("anthropic", c3MockProvider)] }
        none "hello" none
      = Except.error "Provider undefined not found" :=
  ⟨rfl, rfl⟩

/-- C3, amended: the Map-backed selector's `predict` with no model runs the
configured default provider's adapter (its bare string result, with no
`providerUsed` metadata attached); the Record-backed selector's `predict`
throws `ProviderNotFound` for an unregistered (or omitted) provider name
instead of falling back to any default. -/
theorem c3_default_fallback_amended (sel : ProviderSelector) (input : String)
    (provider : MLProvider)
    (hdef : mapGet sel.providers sel.defaultProvider = some provider) :
    ProviderSelector.predict sel input none = provider.predict input none
    ∧ ∀ (msel : MlProviderSelector) (name inp : String) (model : Option String),
        mapGet msel.providers name = none →
        MlProviderSelector.predict msel (some name) inp model
          = Except.error ("Provider " ++ name ++ " not found") := by
  constructor
  · simp [ProviderSelector.predict, hdef]
  · intro msel name inp model hname
    simp [MlProviderSelector.predict, MlProviderSelector.getProvider, hname]

/-- C3 witness: with the single provider `anthropic` configured as the
default, a `predict` call with no model runs that provider's adapter. -/
theorem c3_default_fallback_amended_witness :
    mapGet [("anthropic", c3MockProvider)] "anthropic" = some c3MockProvider
    ∧ ProviderSelector.predict
        { providers := [("anthropic", c3MockProvider)], defaultProvider := "anthropic" }
        "hello" none
      = c3MockProvider.predict "hello" none :=
  ⟨rfl,
    (c3_default_fallback_amended
      { providers := [("anthropic", c3MockProvider)], defaultProvider := "anthropic" }
      "hello" c3MockProvider rfl).1⟩

/-- C4, counterexample: the empty-string model is supported by no
registered provider, yet `predict` with it succeeds — the JS `if (model)`
guard treats `""` as falsy, skips the scan entirely and runs the
configured default provider — refuting "if no registered provider supports
the model it fails with ModelNotSupported" as a universal over all model
strings. -/
theorem c4_empty_model_counterexample :
    providerA.supportedModels.contains "" = false
    ∧ providerB.supportedModels.contains "" = false
    ∧ ProviderSelector.predict
        { providers := [("A", providerA), ("B", providerB)], defaultProvider := "A" }
        "hi" (some "")
      = Except.ok ("A:" ++ "hi") :=
  ⟨by decide, by decide, rfl⟩

/-- C4, amended: for every non-empty (JS-truthy) model string, model-based
lookup scans the providers in registration order (insertion order of the
`Map`, which JS preserves) and returns the first provider whose
`supportedModels` contains the model, and when no registered provider
supports it, `predict` with that model fails (the internal
`No provider found for model` throw, surfaced through the `catch` as
`Failed to generate prediction`); the empty-string model is falsy under
`if (model)` and takes the default-provider path instead of the scan. -/
theorem c4_first_registered_wins (ps1 ps2 : List (String × MLProvider))
    (n : String) (P : MLProvider) (dflt : String) (m : String)
    (hne : ¬ m = "")
    (h1 : ∀ q ∈ ps1, q.2.supportedModels.contains m = false)
    (h2 : P.supportedModels.contains m = true) :
    ProviderSelector.findProviderForModel
        { providers := ps1 ++ (n, P) :: ps2, defaultProvider := dflt } m
      = some (n, P)
    ∧ ∀ (sel : ProviderSelector) (input : String),
        (∀ q ∈ sel.providers, q.2.supportedModels.contains m = false) →
        ProviderSelector.predict sel input (some m)
          = Except.error "Failed to generate prediction" :=
  ⟨findProviderForModel_first m P n dflt ps2 h2 ps1 h1,
   fun sel input hall => predict_no_provider_for_model m sel input hne hall⟩

/-- C4 witness: after registering A (models `[m1]`) then B (models
`[m1, m2]`), looking up the non-empty model `m1` returns A. -/
theorem c4_first_registered_wins_witness :
    providerA.supportedModels.contains "m1" = true
    ∧ ProviderSelector.findProviderForModel
        { providers := [("A", providerA), ("B", providerB)], defaultProvider := "A" } "m1"
      = some ("A", providerA) :=
  ⟨by decide,
    (c4_first_registered_wins [] [("B", providerB)] "A" providerA "A" "m1"
      (by decide) (by intro q hq; simp at hq) (by decide)).1⟩

/-- C5, counterexample: the archived `MCPServer.invokeTool` dispatch of an
unregistered target throws (`Except.error` models the thrown `Error`)
instead of returning a `success:false` result to its caller. -/
theorem c5_invoke_throws_counterexample :
    MCPServer.invokeTool ({ tools := [] } : MCPServer Nat Nat) "missing" 0
      = Except.error "Tool not found: missing" :=
  rfl

/-- C5, amended: the unified server's `handleToolRequest` maps an
unregistered target to the `Tool not found` error result (listing the
available tools) and, being total, never throws; the archived
`MCPServer.invokeTool` instead throws `Tool not found` to its caller. -/
theorem c5_not_found_amended {π δ : Type}
    (tools : List (String × (π → Except String δ))) (toolName : String) (data : π)
    (h : mapGet tools toolName = none) :
    handleToolRequest tools toolName data
      = ToolResponse.err ("Tool not found: " ++ toolName) (tools.map (fun p => p.1))
    ∧ ∀ (s : MCPServer π δ) (toolId : String) (params : π),
        mapGet s.tools toolId = none →
        MCPServer.invokeTool s toolId params
          = Except.error ("Tool not found: " ++ toolId) := by
  constructor
  · simp [handleToolRequest, h]
  · intro s toolId params hs
    simp [MCPServer.invokeTool, hs]

/-- C5 witness: dispatching `missing` against an empty registry yields the
`Tool not found` error result. -/
theorem c5_not_found_amended_witness :
    mapGet ([] : List (String × (Nat → Except String Nat))) "missing" = none
    ∧ handleToolRequest ([] : List (String × (Nat → Except String Nat))) "missing" 0
        = ToolResponse.err ("Tool not found: " ++ "missing") [] :=
  ⟨rfl,
    by simpa using
      (c5_not_found_amended ([] : List (String × (Nat → Except String Nat)))
        "missing" 0 rfl).1⟩

/-- C6, counterexample: when the resolved implementation throws, the
archived `MCPServer.invokeTool` rethrows the original exception
(`boom failed`) to its caller instead of returning an `ExecutionFailed`
failure result. -/
theorem c6_rethrow_counterexample :
    MCPServer.invokeTool (MCPServer.registerTool { tools := [] } c6ThrowingTool)
        "boom" 0
      = Except.error "boom failed" :=
  rfl

/-- C6, amended: the unified server's `handleToolRequest` catches an
implementation exception and returns the `Failed to process ...` error
result with the original message preserved inside it; the archived
`MCPServer.invokeTool` propagates the implementation's outcome — including
its exception — unchanged. -/
theorem c6_execution_failure_amended {π δ : Type}
    (tools : List (String × (π → Except String δ))) (toolName : String) (data : π)
    (tool : π → Except String δ) (msg : String)
    (h1 : mapGet tools toolName = some tool) (h2 : tool data = Except.error msg) :
    handleToolRequest tools toolName data
      = ToolResponse.err ("Failed to process " ++ toolName ++ " request: " ++ msg)
          (tools.map (fun p => p.1))
    ∧ ∀ (s : MCPServer π δ) (toolId : String) (params : π) (t : MCPTool π δ),
        mapGet s.tools toolId = some t →
        MCPServer.invokeTool s toolId params = t.execute params := by
  constructor
  · simp [handleToolRequest, h1, h2]
  · intro s toolId params t hs
    simp [MCPServer.invokeTool, hs]

/-- C6 witness: the failing implementation's message `boom` is preserved
inside `handleToolRequest`'s error result. -/
theorem c6_execution_failure_amended_witness :
    mapGet [("t", c6FailingImpl)] "t" = some c6FailingImpl
    ∧ handleToolRequest [("t", c6FailingImpl)] "t" 0
        = ToolResponse.err ("Failed to process " ++ "t" ++ " request: " ++ "boom") ["t"] :=
  ⟨rfl,
    by simpa using
      (c6_execution_failure_amended [("t", c6FailingImpl)] "t" 0 c6FailingImpl
        "boom" rfl rfl).1⟩

/-- C7, counterexample: in `ToolManager.initialize` the failure of
`bad.js` aborts the whole `ai` category, so `good.js` — whose own
construction succeeds — is not registered either, refuting "exactly that
one capability is skipped". -/
theorem c7_category_abort_counterexample :
    (ToolManager.init c7FsEnv c7Loader { tools := [], initialized := false }).tools
      = ([] : List (String × String))
    ∧ c7Loader "ai" "good.js" = Except.ok "impl" :=
  ⟨rfl, rfl⟩

/-- C7, amended: in the unified server's `loadToolsFromDirectory` a
construction failure is isolated to that one file — folding the loader
over the directory with the failing file is the same as folding without it,
and the load itself returns normally; in `ToolManager.initialize` the
`try` wraps the whole category loop, so a failing file aborts the
remainder of its category (entries already set are kept, other categories
are unaffected) while the load still completes. -/
theorem c7_isolation_amended {τ : Type} (loader : String → String → Except String τ)
    (directory : String) (tools : List (String × τ)) (files1 files2 : List String)
    (f e : String) (he : loader directory f = Except.error e) :
    (files1 ++ f :: files2).foldl (loadDirStep loader directory) tools
      = (files1 ++ files2).foldl (loadDirStep loader directory) tools
    ∧ ∀ (category : String) (acc : List (String × τ)) (g : String)
        (rest : List String) (e2 : String),
        jsEndsWith g ".js" = true → loader category g = Except.error e2 →
        loadCategoryFiles loader category acc (g :: rest) = acc := by
  constructor
  · have hstep : ∀ acc : List (String × τ), loadDirStep loader directory acc f = acc := by
      intro acc
      unfold loadDirStep
      rw [he]
      split <;> rfl
    simp [List.foldl_append, List.foldl_cons, hstep]
  · intro category acc g rest e2 hg hl
    simp [loadCategoryFiles, hg, hl]

/-- C7 witness: with a loader that fails only on `bad_tool.js`, loading the
directory listing with and without that file registers the same tools. -/
theorem c7_isolation_amended_witness :
    c7DirLoader "ai" "bad_tool.js" = Except.error "construction failed"
    ∧ ["a_tool.js", "bad_tool.js", "b_tool.js"].foldl
        (loadDirStep c7DirLoader "ai") ([] : List (String × String))
      = ["a_tool.js", "b_tool.js"].foldl (loadDirStep c7DirLoader "ai") [] :=
  ⟨rfl,
    (c7_isolation_amended c7DirLoader "ai" [] ["a_tool.js"] ["b_tool.js"]
      "bad_tool.js" "construction failed" rfl).1⟩

/-- C8 (code bug): `getToolsByCategory` filters with a string-prefix test,
so the `code` category also returns every `code-analysis` entry — not
"exactly the names registered under that category". -/
theorem c8_startsWith_collision_bug :
    ToolManager.getToolsByCategory
        ({ tools := [("code/a.js", 1), ("code-analysis/b.js", 2)], initialized := true } :
          ToolManager Nat) "code"
      = [("code/a.js", 1), ("code-analysis/b.js", 2)] :=
  rfl

/-- C9: `ToolManager.initialize` is idempotent — once it has completed,
every further call (under any filesystem and loader environment) returns
the manager unchanged, so initialize after initialize equals a single
initialize. -/
theorem c9_initialize_idempotent {τ : Type}
    (fsEnv1 fsEnv2 : String → Option (List String))
    (loader1 loader2 : String → String → Except String τ) (tm : ToolManager τ) :
    ToolManager.init fsEnv2 loader2 (ToolManager.init fsEnv1 loader1 tm)
      = ToolManager.init fsEnv1 loader1 tm := by
  cases htm : tm.initialized with
  | true => simp [ToolManager.init, htm]
  | false => simp [ToolManager.init, htm]

/-- C10, counterexample: `options.model = ""` is not contained in
`supportedModels`, yet `predict` succeeds — JS `||` treats the empty
string as absent and substitutes the first supported model, which is then
forwarded to the backend. -/
theorem c10_empty_model_counterexample :
    AnthropicProvider.supportedModels.contains "" = false
    ∧ AnthropicProvider.predict echoBackend "hi" (some "")
        = Except.ok ("claude-3-opus-20240229" ++ ":" ++ "hi") :=
  ⟨by decide, rfl⟩

/-- C10, amended: with `options.model` omitted (or equal to the empty
string, which JS `||` treats as omitted) the adapter behaves as if called
with its first supported model, `claude-3-opus-20240229`; with a non-empty
`options.model` outside `supportedModels`, `predict` fails with the
adapter's error instead of forwarding the model to the backend. -/
theorem c10_model_validation_amended
    (backend : String → String → Except String String) (input m : String)
    (hne : ¬ m = "") (hns : AnthropicProvider.supportedModels.contains m = false) :
    AnthropicProvider.predict backend input (some m)
      = Except.error "Failed to generate prediction with Anthropic"
    ∧ ∀ (bk : String → String → Except String String) (inp : String),
        AnthropicProvider.predict bk inp none
          = AnthropicProvider.predict bk inp (some "claude-3-opus-20240229") := by
  constructor
  · have hmem : m ∉ AnthropicProvider.supportedModels := by simpa using hns
    simp [AnthropicProvider.predict, jsOrString, hne, hmem]
  · intro bk inp
    rfl

/-- C10 witness: the unsupported non-empty model `gpt-4` makes `predict`
fail. -/
theorem c10_model_validation_amended_witness :
    AnthropicProvider.supportedModels.contains "gpt-4" = false
    ∧ AnthropicProvider.predict echoBackend "hi" (some "gpt-4")
        = Except.error "Failed to generate prediction with Anthropic" :=
  ⟨by decide,
    (c10_model_validation_amended echoBackend "hi" "gpt-4" (by decide) (by decide)).1⟩

end Mcp
